import Mathlib

/-!
Shallow embedding of the boxing contest engine: the `Boxer` entity and its
store-side row, the weight-class classifier, the stat-update operation, and
the `RingModel` operations (`enter_ring`, `clear_ring`, `fight`).

Modelling conventions:
  * Python numeric arithmetic is embedded in exact arithmetic (`Int`, `Nat`,
    `ℚ` for decimal values, `ℝ` for the logistic transform).
  * The SQLite store is a list of rows; SQL `UPDATE ... WHERE id = ?` maps
    over the rows matching the id, and the existence probe mirrors the
    `SELECT id FROM boxers WHERE id = ?` check.
  * Python exceptions become `Except String` results; a raised exception
    leaves the mutable ring state as it was, which the `fight` embedding
    records explicitly in its `FightOutcome`.
  * The external randomness source is a parameter `sample : ℝ`; the
    `randRequests` field counts how many times `get_random` was invoked.
-/

namespace Boxing

/-- Competitor entity. In the source, `__post_init__` is indented at module
level rather than inside the dataclass body, so it is not a method of
`Boxer`; consequently the dataclass constructor leaves `weight_class` at its
default `None`, embedded here as the default field value `none`. -/
structure Boxer where
  id : Int
  name : String
  weight : Int
  height : Int
  reach : ℚ
  age : Int
  weight_class : Option String := none
deriving Repr, DecidableEq

/-- One persisted row of the boxers table, including the cumulative stats. -/
structure BoxerRow where
  id : Int
  name : String
  weight : Int
  height : Int
  reach : ℚ
  age : Int
  fights : Nat
  wins : Nat
deriving Repr, DecidableEq

/-- `get_weight_class` from boxers_model.py: four bands with inclusive lower
thresholds 203, 166, 133, 125, and an error below 125. -/
def get_weight_class (weight : Int) : Except String String :=
  if weight ≥ 203 then .ok "HEAVYWEIGHT"
  else if weight ≥ 166 then .ok "MIDDLEWEIGHT"
  else if weight ≥ 133 then .ok "LIGHTWEIGHT"
  else if weight ≥ 125 then .ok "FEATHERWEIGHT"
  else .error "Invalid weight. Weight must be at least 125."

/-- Rank of a weight-class label, lowest band first; used to state
monotonicity of the classifier. -/
def weightClassRank (c : String) : Nat :=
  if c = "HEAVYWEIGHT" then 3
  else if c = "MIDDLEWEIGHT" then 2
  else if c = "LIGHTWEIGHT" then 1
  else 0

/-- `get_boxer_by_id` from boxers_model.py: looks the row up by id and
builds a `Boxer` with the dataclass constructor, which does not set
`weight_class`. -/
def get_boxer_by_id (db : List BoxerRow) (boxer_id : Int) : Except String Boxer :=
  match db.find? (fun r => r.id = boxer_id) with
  | some row =>
      .ok { id := row.id, name := row.name, weight := row.weight,
            height := row.height, reach := row.reach, age := row.age }
  | none => .error "Boxer not found."

/-- `get_boxer_by_name` from boxers_model.py: looks the row up by name and
builds a `Boxer` with the dataclass constructor, which does not set
`weight_class`. -/
def get_boxer_by_name (db : List BoxerRow) (boxer_name : String) : Except String Boxer :=
  match db.find? (fun r => r.name = boxer_name) with
  | some row =>
      .ok { id := row.id, name := row.name, weight := row.weight,
            height := row.height, reach := row.reach, age := row.age }
  | none => .error "Boxer not found."

/-- `update_boxer_stats` from boxers_model.py: validates the result tag,
probes for the id, then increments fights (and wins on a win) on every row
matching the id, mirroring the SQL `UPDATE`. -/
def update_boxer_stats (db : List BoxerRow) (boxer_id : Int) (result : String) :
    Except String (List BoxerRow) :=
  if ¬ (result = "win" ∨ result = "loss") then
    .error "Invalid result. Expected win or loss."
  else if db.any (fun r => r.id = boxer_id) then
    .ok (db.map (fun r =>
      if r.id = boxer_id then
        if result = "win" then { r with fights := r.fights + 1, wins := r.wins + 1 }
        else { r with fights := r.fights + 1 }
      else r))
  else
    .error "Boxer not found."

/-- `RingModel.get_fighting_skill`: weight times the character length of the
name, plus reach divided by 10, plus an age modifier of -1 below 25, -2
above 35, else 0. -/
def get_fighting_skill (boxer : Boxer) : ℚ :=
  (boxer.weight : ℚ) * (boxer.name.length : ℚ) + boxer.reach / 10 +
    (if boxer.age < 25 then -1 else if boxer.age > 35 then -2 else 0)

/-- The logistic transform `1 / (1 + e^(-delta))` used by `fight`. -/
noncomputable def sigmoid (delta : ℝ) : ℝ := 1 / (1 + Real.exp (-delta))

/-- `RingModel.__init__`: the ring starts empty. -/
def initRing : List Boxer := []

/-- `RingModel.enter_ring`: capacity error at 2 members, otherwise append.
The `isinstance` guard of the source is subsumed by static typing here. -/
def enter_ring (ring : List Boxer) (boxer : Boxer) : Except String (List Boxer) :=
  if ring.length ≥ 2 then .error "Ring is full, cannot add more boxers."
  else .ok (ring ++ [boxer])

/-- `RingModel.clear_ring`: no-op on an empty ring, otherwise empty it. -/
def clear_ring (ring : List Boxer) : List Boxer :=
  if ring.isEmpty then ring else []

/-- `RingModel.get_boxers`: returns the ring contents. -/
def get_boxers (ring : List Boxer) : List Boxer := ring

/-- Observable outcome of one `fight` call: the returned value or raised
error, the ring and store state afterwards, the stat-update calls issued in
order, and how many random samples were requested. -/
structure FightOutcome where
  result : Except String String
  ring : List Boxer
  db : List BoxerRow
  calls : List (Int × String)
  randRequests : Nat

/-- The absolute skill difference of the two boxers, from `fight`:
`delta = abs (skill_1 - skill_2)`. -/
def fightDelta (boxer_1 boxer_2 : Boxer) : ℚ :=
  |get_fighting_skill boxer_1 - get_fighting_skill boxer_2|

/-- The normalized delta of `fight`: the logistic transform of the absolute
skill difference. -/
noncomputable def normalizedDelta (boxer_1 boxer_2 : Boxer) : ℝ :=
  sigmoid ((fightDelta boxer_1 boxer_2 : ℚ) : ℝ)

/-- The winner-loser selection of `fight`: the first-entered boxer wins when
the sample is strictly below the normalized delta, else the second wins. -/
noncomputable def fightPair (boxer_1 boxer_2 : Boxer) (sample : ℝ) : Boxer × Boxer :=
  if sample < normalizedDelta boxer_1 boxer_2 then (boxer_1, boxer_2) else (boxer_2, boxer_1)

/-- `RingModel.fight`: checks the two-member precondition, computes the two
skills, the absolute delta and the logistic probability, draws the sample,
picks winner and loser by insertion order, issues the two stat updates in
sequence (a raised error propagates at once, skipping what follows), clears
the ring only after both updates succeed, and returns the winner name. -/
noncomputable def fight (ring : List Boxer) (db : List BoxerRow) (sample : ℝ) : FightOutcome :=
  if ring.length < 2 then
    { result := .error "There must be two boxers to start a fight.",
      ring := ring, db := db, calls := [], randRequests := 0 }
  else
    match get_boxers ring with
    | [boxer_1, boxer_2] =>
      let wl : Boxer × Boxer := fightPair boxer_1 boxer_2 sample
      match update_boxer_stats db wl.1.id "win" with
      | .error e =>
          { result := .error e, ring := ring, db := db,
            calls := [(wl.1.id, "win")], randRequests := 1 }
      | .ok dbW =>
          match update_boxer_stats dbW wl.2.id "loss" with
          | .error e =>
              { result := .error e, ring := ring, db := dbW,
                calls := [(wl.1.id, "win"), (wl.2.id, "loss")], randRequests := 1 }
          | .ok dbL =>
              { result := .ok wl.1.name, ring := clear_ring ring, db := dbL,
                calls := [(wl.1.id, "win"), (wl.2.id, "loss")], randRequests := 1 }
    | _ =>
      { result := .error "too many values to unpack",
        ring := ring, db := db, calls := [], randRequests := 0 }

/-- Strength formula as the specification words it: size metric times the
character length of the name, plus the primary secondary metric divided by
10, plus the age adjustment of -1 below 25, -2 above 35, else 0. -/
def computeStrength_specFormula (size : Int) (nameLen : Nat) (secondary : ℚ) (age : Int) : ℚ :=
  (size : ℚ) * (nameLen : ℚ) + secondary / 10 +
    (if age < 25 then -1 else if age > 35 then -2 else 0)

/-- Concrete competitor A of the spec scenario in section 8: size 150, name
of length 9, secondary metric 72.2, age 21. -/
def boxerA : Boxer :=
  { id := 1, name := "AAAAAAAAA", weight := 150, height := 70, reach := 72.2, age := 21 }

/-- Concrete competitor B of the spec scenario in section 8: size 180, name
of length 9, secondary metric 77.5, age 24. -/
def boxerB : Boxer :=
  { id := 2, name := "BBBBBBBBB", weight := 180, height := 71, reach := 77.5, age := 24 }

/-- Store row for competitor A with zero recorded contests. -/
def rowA : BoxerRow :=
  { id := 1, name := "AAAAAAAAA", weight := 150, height := 70, reach := 72.2,
    age := 21, fights := 0, wins := 0 }

/-- Store row for competitor B with zero recorded contests. -/
def rowB : BoxerRow :=
  { id := 2, name := "BBBBBBBBB", weight := 180, height := 71, reach := 77.5,
    age := 24, fights := 0, wins := 0 }

/-- Store holding exactly the two scenario rows. -/
def dbAB : List BoxerRow := [rowA, rowB]

/-- The logistic transform always lies strictly above 0. -/
theorem sigmoid_pos (x : ℝ) : 0 < sigmoid x := by
  unfold sigmoid
  positivity

/-- The logistic transform always lies strictly below 1. -/
theorem sigmoid_lt_one (x : ℝ) : sigmoid x < 1 := by
  unfold sigmoid
  rw [div_lt_one (by positivity)]
  linarith [Real.exp_pos (-x)]

/-- When the sample is below the normalized delta, the first-entered boxer
is the winner. -/
theorem fightPair_of_lt {boxer_1 boxer_2 : Boxer} {sample : ℝ}
    (h : sample < normalizedDelta boxer_1 boxer_2) :
    fightPair boxer_1 boxer_2 sample = (boxer_1, boxer_2) := if_pos h

/-- When the sample is at or above the normalized delta, the second-entered
boxer is the winner. -/
theorem fightPair_of_ge {boxer_1 boxer_2 : Boxer} {sample : ℝ}
    (h : ¬ sample < normalizedDelta boxer_1 boxer_2) :
    fightPair boxer_1 boxer_2 sample = (boxer_2, boxer_1) := if_neg h

/-- Unfolding of `fight` on a two-member ring: the winner gets the win
update first, then the loser the loss update, and the ring is cleared only
on the doubly successful path. -/
theorem fight_pair (boxer_1 boxer_2 : Boxer) (db : List BoxerRow) (sample : ℝ) :
    fight [boxer_1, boxer_2] db sample =
      match update_boxer_stats db (fightPair boxer_1 boxer_2 sample).1.id "win" with
      | .error e =>
          { result := .error e, ring := [boxer_1, boxer_2], db := db,
            calls := [((fightPair boxer_1 boxer_2 sample).1.id, "win")], randRequests := 1 }
      | .ok dbW =>
          match update_boxer_stats dbW (fightPair boxer_1 boxer_2 sample).2.id "loss" with
          | .error e =>
              { result := .error e, ring := [boxer_1, boxer_2], db := dbW,
                calls := [((fightPair boxer_1 boxer_2 sample).1.id, "win"),
                          ((fightPair boxer_1 boxer_2 sample).2.id, "loss")],
                randRequests := 1 }
          | .ok dbL =>
              { result := .ok (fightPair boxer_1 boxer_2 sample).1.name, ring := [], db := dbL,
                calls := [((fightPair boxer_1 boxer_2 sample).1.id, "win"),
                          ((fightPair boxer_1 boxer_2 sample).2.id, "loss")],
                randRequests := 1 } := by
  simp [fight, get_boxers, clear_ring]

/-- The scenario name of competitor A has 9 characters. -/
theorem lenA : "AAAAAAAAA".length = 9 := rfl

/-- The scenario name of competitor B has 9 characters. -/
theorem lenB : "BBBBBBBBB".length = 9 := rfl

/-- Strength score of scenario competitor A. -/
theorem skillA : get_fighting_skill boxerA = 1356.22 := by
  norm_num [get_fighting_skill, boxerA, lenA]

/-- Strength score of scenario competitor B: since the age 24 of B lies
below 25, the age modifier is -1, so the code yields 1626.75 and not the
1627.75 the specification scenario lists. -/
theorem skillB : get_fighting_skill boxerB = 1626.75 := by
  norm_num [get_fighting_skill, boxerB, lenB]

/-- Absolute skill difference of the scenario pair. -/
theorem deltaAB : fightDelta boxerA boxerB = 270.53 := by
  norm_num [fightDelta, skillA, skillB]

/-- The normalized delta is always strictly positive. -/
theorem normalizedDelta_pos (b1 b2 : Boxer) : 0 < normalizedDelta b1 b2 := sigmoid_pos _

/-- The win probability of the scenario pair saturates above 0.99. -/
theorem ndAB : (0.99 : ℝ) < normalizedDelta boxerA boxerB := by
  unfold normalizedDelta sigmoid
  rw [deltaAB]
  have hc : (((270.53 : ℚ)) : ℝ) = 270.53 := by norm_num
  rw [hc]
  have h1 : (271.53 : ℝ) ≤ Real.exp 270.53 := by
    linarith [Real.add_one_le_exp (270.53 : ℝ)]
  have h2 : Real.exp (-(270.53 : ℝ)) ≤ 1 / 271.53 := by
    rw [Real.exp_neg, ← one_div]
    exact one_div_le_one_div_of_le (by norm_num) h1
  have h3 : (0 : ℝ) < Real.exp (-(270.53 : ℝ)) := Real.exp_pos _
  rw [lt_div_iff₀ (by linarith)]
  linarith

/-- Full run of the scenario fight against the two-row store, for any sample
below the normalized delta: A wins, both updates succeed, the ring ends
empty. -/
theorem fight_AB {sample : ℝ} (h : sample < normalizedDelta boxerA boxerB) :
    fight [boxerA, boxerB] dbAB sample =
      { result := .ok "AAAAAAAAA", ring := [],
        db := [{ rowA with fights := 1, wins := 1 }, { rowB with fights := 1 }],
        calls := [(1, "win"), (2, "loss")], randRequests := 1 } := by
  rw [fight_pair, fightPair_of_lt h]
  simp [update_boxer_stats, dbAB, rowA, rowB, boxerA, boxerB]

/-- Full run of the scenario fight against an empty store, for any sample
below the normalized delta: the very first stat update raises not-found, the
loss update is never attempted, and the ring keeps its two members. -/
theorem fight_AB_emptyDb {sample : ℝ} (h : sample < normalizedDelta boxerA boxerB) :
    fight [boxerA, boxerB] ([] : List BoxerRow) sample =
      { result := .error "Boxer not found.", ring := [boxerA, boxerB], db := [],
        calls := [(1, "win")], randRequests := 1 } := by
  rw [fight_pair, fightPair_of_lt h]
  simp [update_boxer_stats, boxerA]

/-- The winner-loser pair is one of the two orderings of the entered pair. -/
theorem fightPair_cases (boxer_1 boxer_2 : Boxer) (sample : ℝ) :
    fightPair boxer_1 boxer_2 sample = (boxer_1, boxer_2) ∨
      fightPair boxer_1 boxer_2 sample = (boxer_2, boxer_1) := by
  unfold fightPair
  by_cases h : sample < normalizedDelta boxer_1 boxer_2
  · exact Or.inl (if_pos h)
  · exact Or.inr (if_neg h)

/-- Inversion of a successful fight: the ring held exactly two members, both
stat updates succeeded in order, the winner name was returned, and the ring
was cleared. -/
theorem fight_ok_inv (ring : List Boxer) (db : List BoxerRow) (sample : ℝ) (w : String)
    (h : (fight ring db sample).result = .ok w) :
    ∃ b1 b2 dbW dbL,
      ring = [b1, b2] ∧
      w = (fightPair b1 b2 sample).1.name ∧
      update_boxer_stats db (fightPair b1 b2 sample).1.id "win" = .ok dbW ∧
      update_boxer_stats dbW (fightPair b1 b2 sample).2.id "loss" = .ok dbL ∧
      fight ring db sample =
        { result := .ok w, ring := [], db := dbL,
          calls := [((fightPair b1 b2 sample).1.id, "win"),
                    ((fightPair b1 b2 sample).2.id, "loss")],
          randRequests := 1 } := by
  rcases ring with _ | ⟨b1, _ | ⟨b2, _ | ⟨b3, rest⟩⟩⟩
  · simp [fight] at h
  · simp [fight] at h
  · rw [fight_pair] at h
    split at h
    next e heq => simp at h
    next dbW heq =>
      split at h
      next e heq2 => simp at h
      next dbL heq2 =>
        simp only [Except.ok.injEq] at h
        refine ⟨b1, b2, dbW, dbL, rfl, h.symm, heq, heq2, ?_⟩
        rw [fight_pair]
        simp only [heq, heq2, h]
  · unfold fight at h
    have hlen : ¬ (b1 :: b2 :: b3 :: rest).length < 2 := by
      simp only [List.length_cons]
      omega
    rw [if_neg hlen] at h
    simp [get_boxers] at h

/-- Mapping a function over a list relates the list pointwise to its image. -/
theorem forall₂_self_map {α β : Type} {R : α → β → Prop} {f : α → β}
    (h : ∀ a, R a (f a)) : ∀ l : List α, List.Forall₂ R l (l.map f)
  | [] => List.Forall₂.nil
  | a :: t => List.Forall₂.cons (h a) (forall₂_self_map h t)

/-- Claim C4: for every competitor, the skill computation returns exactly
size metric times the character length of the name, plus the primary
secondary metric divided by 10, plus the age adjustment of -1 below age 25,
-2 above 35, else 0, agreeing with the formula as the specification words
it; and the function is pure, so identical inputs give identical scores. -/
theorem claim_C4 :
    (∀ b : Boxer, get_fighting_skill b =
      computeStrength_specFormula b.weight b.name.length b.reach b.age) ∧
    (∀ b1 b2 : Boxer, b1 = b2 → get_fighting_skill b1 = get_fighting_skill b2) :=
  ⟨fun _ => rfl, fun _ _ h => h ▸ rfl⟩

/-- Witness for claim C4 at competitor A. -/
theorem claim_C4_witness :
    get_fighting_skill boxerA =
      computeStrength_specFormula boxerA.weight boxerA.name.length boxerA.reach boxerA.age ∧
    (boxerA = boxerA ∧ get_fighting_skill boxerA = get_fighting_skill boxerA) :=
  ⟨claim_C4.1 boxerA, rfl, claim_C4.2 boxerA boxerA rfl⟩

/-- Claim C7: calling fight with fewer than two members fails with the
insufficient-participants error, leaves the ring and the store untouched,
issues no stat-update call and requests no randomness. -/
theorem claim_C7 (ring : List Boxer) (db : List BoxerRow) (sample : ℝ)
    (h : ring.length < 2) :
    (fight ring db sample).result = .error "There must be two boxers to start a fight." ∧
    (fight ring db sample).ring = ring ∧
    (fight ring db sample).db = db ∧
    (fight ring db sample).calls = [] ∧
    (fight ring db sample).randRequests = 0 := by
  unfold fight
  rw [if_pos h]
  exact ⟨rfl, rfl, rfl, rfl, rfl⟩

/-- Witness for claim C7 on the empty ring. -/
theorem claim_C7_witness :
    ([] : List Boxer).length < 2 ∧
    ((fight [] dbAB 0).result = .error "There must be two boxers to start a fight." ∧
     (fight [] dbAB 0).ring = [] ∧
     (fight [] dbAB 0).db = dbAB ∧
     (fight [] dbAB 0).calls = [] ∧
     (fight [] dbAB 0).randRequests = 0) :=
  ⟨by decide, claim_C7 [] dbAB 0 (by decide)⟩

/-- Claim C10: every Boxer value the retrieval constructors produce carries
weight_class none, because the category-assigning initializer sits at module
level instead of being a method of the dataclass, so the derived category is
never populated on the entity value. -/
theorem claim_C10 :
    (∀ (db : List BoxerRow) (i : Int) (b : Boxer),
      get_boxer_by_id db i = .ok b → b.weight_class = none) ∧
    (∀ (db : List BoxerRow) (nm : String) (b : Boxer),
      get_boxer_by_name db nm = .ok b → b.weight_class = none) := by
  constructor
  · intro db i b h
    unfold get_boxer_by_id at h
    split at h
    · simp only [Except.ok.injEq] at h
      rw [← h]
    · simp at h
  · intro db nm b h
    unfold get_boxer_by_name at h
    split at h
    · simp only [Except.ok.injEq] at h
      rw [← h]
    · simp at h

/-- Witness for claim C10 on the scenario store. -/
theorem claim_C10_witness :
    get_boxer_by_id dbAB 1 = .ok
      { id := 1, name := "AAAAAAAAA", weight := 150, height := 70, reach := 72.2, age := 21 } ∧
    ({ id := 1, name := "AAAAAAAAA", weight := 150, height := 70, reach := 72.2,
       age := 21 } : Boxer).weight_class = none := by
  have h : get_boxer_by_id dbAB 1 = .ok
      { id := 1, name := "AAAAAAAAA", weight := 150, height := 70, reach := 72.2, age := 21 } := by
    simp [get_boxer_by_id, dbAB, rowA, List.find?]
  exact ⟨h, claim_C10.1 dbAB 1 _ h⟩

/-- Rank of the lowest band. -/
theorem rankFeather : weightClassRank "FEATHERWEIGHT" = 0 := rfl

/-- Rank of the second band. -/
theorem rankLight : weightClassRank "LIGHTWEIGHT" = 1 := rfl

/-- Rank of the third band. -/
theorem rankMiddle : weightClassRank "MIDDLEWEIGHT" = 2 := rfl

/-- Rank of the highest band. -/
theorem rankHeavy : weightClassRank "HEAVYWEIGHT" = 3 := rfl

/-- Claim C6: the ring starts empty, entering appends a single competitor in
insertion order, entering a full ring fails with the capacity error, and
every operation preserves the bound of at most 2 members. -/
theorem claim_C6 :
    initRing = [] ∧
    (∀ (ring : List Boxer) (b : Boxer), 2 ≤ ring.length →
      enter_ring ring b = .error "Ring is full, cannot add more boxers.") ∧
    (∀ (ring : List Boxer) (b : Boxer), ring.length < 2 →
      enter_ring ring b = .ok (ring ++ [b])) ∧
    (∀ (ring ring2 : List Boxer) (b : Boxer), enter_ring ring b = .ok ring2 →
      ring2 = ring ++ [b] ∧ ring2.length = ring.length + 1 ∧ ring2.length ≤ 2) ∧
    (∀ ring : List Boxer, (clear_ring ring).length ≤ 2) ∧
    (∀ (ring : List Boxer) (db : List BoxerRow) (sample : ℝ), ring.length ≤ 2 →
      (fight ring db sample).ring.length ≤ 2) := by
  refine ⟨rfl, ?_, ?_, ?_, ?_, ?_⟩
  · intro ring b h
    unfold enter_ring
    rw [if_pos h]
  · intro ring b h
    unfold enter_ring
    rw [if_neg (by omega)]
  · intro ring ring2 b h
    unfold enter_ring at h
    split at h
    · simp at h
    · simp only [Except.ok.injEq] at h
      rw [← h]
      refine ⟨rfl, by simp, ?_⟩
      simp only [List.length_append, List.length_cons, List.length_nil]
      omega
  · intro ring
    unfold clear_ring
    split
    · next hemp => simp_all [List.isEmpty_iff]
    · simp
  · intro ring db sample hlen
    rcases ring with _ | ⟨b1, _ | ⟨b2, _ | ⟨b3, rest⟩⟩⟩
    · simp [fight]
    · simp [fight]
    · rw [fight_pair]
      split
      · simp
      · split
        · simp
        · simp
    · exfalso
      simp only [List.length_cons] at hlen
      omega

/-- Witness for claim C6 at concrete rings. -/
theorem claim_C6_witness :
    enter_ring [boxerA, boxerB] boxerA = .error "Ring is full, cannot add more boxers." ∧
    enter_ring [] boxerA = .ok [boxerA] ∧
    ([boxerA] = [] ++ [boxerA] ∧ [boxerA].length = ([] : List Boxer).length + 1 ∧
      [boxerA].length ≤ 2) ∧
    (fight [boxerA, boxerB] dbAB 0).ring.length ≤ 2 :=
  ⟨claim_C6.2.1 [boxerA, boxerB] boxerA (by decide),
   claim_C6.2.2.1 [] boxerA (by decide),
   claim_C6.2.2.2.1 [] [boxerA] boxerA (claim_C6.2.2.1 [] boxerA (by decide)),
   claim_C6.2.2.2.2.2 [boxerA, boxerB] dbAB 0 (by decide)⟩

/-- Claim C8: the classifier is total on metrics at or above the lowest
threshold 125, returning one of the four band labels, fails with the
invalid-input error below it, and the assigned band rank is monotonic
non-decreasing in the metric. -/
theorem claim_C8 :
    (∀ m : Int, 125 ≤ m → ∃ c, get_weight_class m = .ok c ∧
      (c = "FEATHERWEIGHT" ∨ c = "LIGHTWEIGHT" ∨ c = "MIDDLEWEIGHT" ∨ c = "HEAVYWEIGHT")) ∧
    (∀ m : Int, m < 125 →
      get_weight_class m = .error "Invalid weight. Weight must be at least 125.") ∧
    (∀ (m m2 : Int) (c c2 : String), m ≤ m2 →
      get_weight_class m = .ok c → get_weight_class m2 = .ok c2 →
      weightClassRank c ≤ weightClassRank c2) := by
  refine ⟨?_, ?_, ?_⟩
  · intro m hm
    by_cases h1 : m ≥ 203
    · exact ⟨"HEAVYWEIGHT", by unfold get_weight_class; rw [if_pos h1], by simp⟩
    · by_cases h2 : m ≥ 166
      · exact ⟨"MIDDLEWEIGHT", by unfold get_weight_class; rw [if_neg h1, if_pos h2], by simp⟩
      · by_cases h3 : m ≥ 133
        · exact ⟨"LIGHTWEIGHT",
            by unfold get_weight_class; rw [if_neg h1, if_neg h2, if_pos h3], by simp⟩
        · exact ⟨"FEATHERWEIGHT",
            by unfold get_weight_class; rw [if_neg h1, if_neg h2, if_neg h3, if_pos hm],
            by simp⟩
  · intro m hm
    unfold get_weight_class
    split_ifs with h1 h2 h3 h4
    · exfalso; omega
    · exfalso; omega
    · exfalso; omega
    · exfalso; omega
    · rfl
  · intro m m2 c c2 hle h1 h2
    unfold get_weight_class at h1 h2
    split_ifs at h1 h2 <;>
      simp only [Except.ok.injEq] at h1 h2 <;>
      subst h1 <;> subst h2 <;>
      simp [rankFeather, rankLight, rankMiddle, rankHeavy] <;>
      try omega

/-- Witness for claim C8 at concrete metrics. -/
theorem claim_C8_witness :
    ((125 : Int) ≤ 130 ∧ ∃ c, get_weight_class 130 = .ok c ∧
      (c = "FEATHERWEIGHT" ∨ c = "LIGHTWEIGHT" ∨ c = "MIDDLEWEIGHT" ∨ c = "HEAVYWEIGHT")) ∧
    ((100 : Int) < 125 ∧
      get_weight_class 100 = .error "Invalid weight. Weight must be at least 125.") ∧
    ((130 : Int) ≤ 210 ∧ weightClassRank "FEATHERWEIGHT" ≤ weightClassRank "HEAVYWEIGHT") :=
  ⟨⟨by norm_num, claim_C8.1 130 (by norm_num)⟩,
   ⟨by norm_num, claim_C8.2.1 100 (by norm_num)⟩,
   ⟨by norm_num, claim_C8.2.2 130 210 "FEATHERWEIGHT" "HEAVYWEIGHT" (by norm_num)
      rfl rfl⟩⟩

/-- Claim C9: the stat update rejects any tag other than win or loss with a
validation error, rejects an absent id with a not-found error, succeeds when
the tag is valid and the id is present, and then increments total contests
by 1 on every row with that id, incrementing wins by 1 exactly on a win,
leaving all other rows unchanged. -/
theorem claim_C9 :
    (∀ (db : List BoxerRow) (i : Int) (result : String),
      ¬ (result = "win" ∨ result = "loss") →
      update_boxer_stats db i result = .error "Invalid result. Expected win or loss.") ∧
    (∀ (db : List BoxerRow) (i : Int) (result : String),
      (result = "win" ∨ result = "loss") → (∀ r ∈ db, r.id ≠ i) →
      update_boxer_stats db i result = .error "Boxer not found.") ∧
    (∀ (db : List BoxerRow) (i : Int) (result : String),
      (result = "win" ∨ result = "loss") → (∃ r ∈ db, r.id = i) →
      ∃ db2, update_boxer_stats db i result = .ok db2) ∧
    (∀ (db db2 : List BoxerRow) (i : Int),
      update_boxer_stats db i "win" = .ok db2 →
      List.Forall₂ (fun r r2 =>
        (r.id = i → r2.fights = r.fights + 1 ∧ r2.wins = r.wins + 1) ∧
        (r.id ≠ i → r2 = r)) db db2) ∧
    (∀ (db db2 : List BoxerRow) (i : Int),
      update_boxer_stats db i "loss" = .ok db2 →
      List.Forall₂ (fun r r2 =>
        (r.id = i → r2.fights = r.fights + 1 ∧ r2.wins = r.wins) ∧
        (r.id ≠ i → r2 = r)) db db2) := by
  refine ⟨?_, ?_, ?_, ?_, ?_⟩
  · intro db i result h
    unfold update_boxer_stats
    rw [if_pos h]
  · intro db i result hres habsent
    unfold update_boxer_stats
    rw [if_neg (not_not_intro hres), if_neg]
    simp only [List.any_eq_true, decide_eq_true_eq, not_exists]
    intro r hr
    exact habsent r hr.1 hr.2
  · intro db i result hres hpresent
    unfold update_boxer_stats
    rw [if_neg (not_not_intro hres), if_pos]
    · exact ⟨_, rfl⟩
    · simp only [List.any_eq_true, decide_eq_true_eq]
      exact hpresent
  · intro db db2 i h
    unfold update_boxer_stats at h
    rw [if_neg (by simp)] at h
    by_cases hany : (db.any fun r => r.id = i) = true
    · rw [if_pos hany] at h
      simp only [Except.ok.injEq] at h
      rw [← h]
      refine forall₂_self_map ?_ db
      intro r
      constructor
      · intro hr
        simp [hr]
      · intro hr
        simp [hr]
    · rw [if_neg hany] at h
      simp at h
  · intro db db2 i h
    unfold update_boxer_stats at h
    rw [if_neg (by simp)] at h
    by_cases hany : (db.any fun r => r.id = i) = true
    · rw [if_pos hany] at h
      simp only [Except.ok.injEq] at h
      rw [← h]
      refine forall₂_self_map ?_ db
      intro r
      constructor
      · intro hr
        simp [hr]
      · intro hr
        simp [hr]
    · rw [if_neg hany] at h
      simp at h

/-- Witness for claim C9 on the scenario store. -/
theorem claim_C9_witness :
    update_boxer_stats dbAB 1 "draw" = .error "Invalid result. Expected win or loss." ∧
    update_boxer_stats dbAB 7 "win" = .error "Boxer not found." ∧
    (∃ db2, update_boxer_stats dbAB 1 "win" = .ok db2) ∧
    List.Forall₂ (fun r r2 =>
      (r.id = 1 → r2.fights = r.fights + 1 ∧ r2.wins = r.wins + 1) ∧
      (r.id ≠ 1 → r2 = r)) dbAB
      [{ rowA with fights := 1, wins := 1 }, rowB] := by
  have hupd : update_boxer_stats dbAB 1 "win" =
      .ok [{ rowA with fights := 1, wins := 1 }, rowB] := by
    simp [update_boxer_stats, dbAB, rowA, rowB]
  refine ⟨claim_C9.1 dbAB 1 "draw" (by simp),
    claim_C9.2.1 dbAB 7 "win" (Or.inl rfl) (by decide),
    claim_C9.2.2.1 dbAB 1 "win" (Or.inl rfl) ⟨rowA, by simp [dbAB], by simp [rowA]⟩,
    claim_C9.2.2.2.1 dbAB _ 1 hupd⟩

/-- Claim C5: with exactly two members, delta is the absolute difference of
the two strength scores and never negative, the probability is the logistic
transform 1/(1+e^(-delta)), a sample strictly below the probability makes
the first-entered competitor the winner and otherwise the second wins, and
a successful call returns the name of that winner. -/
theorem claim_C5 (b1 b2 : Boxer) (db : List BoxerRow) (sample : ℝ) (w : String)
    (h : (fight [b1, b2] db sample).result = .ok w) :
    0 ≤ fightDelta b1 b2 ∧
    fightDelta b1 b2 = |get_fighting_skill b1 - get_fighting_skill b2| ∧
    normalizedDelta b1 b2 = 1 / (1 + Real.exp (-((fightDelta b1 b2 : ℚ) : ℝ))) ∧
    (sample < normalizedDelta b1 b2 → w = b1.name) ∧
    (normalizedDelta b1 b2 ≤ sample → w = b2.name) := by
  obtain ⟨b1', b2', dbW, dbL, hring, hw, -, -, -⟩ := fight_ok_inv _ db sample w h
  injection hring with e1 rest
  injection rest with e2 _
  subst e1
  subst e2
  refine ⟨abs_nonneg _, rfl, rfl, ?_, ?_⟩
  · intro hlt
    rw [hw, fightPair_of_lt hlt]
  · intro hge
    rw [hw, fightPair_of_ge (not_lt.mpr hge)]

/-- Witness for claim C5 on the scenario fight with sample 0. -/
theorem claim_C5_witness :
    (fight [boxerA, boxerB] dbAB 0).result = .ok "AAAAAAAAA" ∧
    (0 ≤ fightDelta boxerA boxerB ∧
     fightDelta boxerA boxerB = |get_fighting_skill boxerA - get_fighting_skill boxerB| ∧
     normalizedDelta boxerA boxerB =
       1 / (1 + Real.exp (-((fightDelta boxerA boxerB : ℚ) : ℝ))) ∧
     ((0 : ℝ) < normalizedDelta boxerA boxerB → "AAAAAAAAA" = boxerA.name) ∧
     (normalizedDelta boxerA boxerB ≤ (0 : ℝ) → "AAAAAAAAA" = boxerB.name)) := by
  have hres : (fight [boxerA, boxerB] dbAB 0).result = .ok "AAAAAAAAA" := by
    rw [fight_AB (normalizedDelta_pos boxerA boxerB)]
  exact ⟨hres, claim_C5 boxerA boxerB dbAB 0 "AAAAAAAAA" hres⟩

/-- Claim C1 counterexample: at the concrete sample 0.5, which lies in
[0,1), the code scores B at 1626.75 rather than the 1627.75 the claim
states, and the resolution returns A, the first-entered competitor, as the
winner, not B. -/
theorem claim_C1_counterexample :
    (0 : ℝ) ≤ 0.5 ∧ (0.5 : ℝ) < 1 ∧
    get_fighting_skill boxerB ≠ 1627.75 ∧
    (fight [boxerA, boxerB] dbAB 0.5).result = .ok "AAAAAAAAA" ∧
    "AAAAAAAAA" ≠ "BBBBBBBBB" := by
  refine ⟨by norm_num, by norm_num, ?_, ?_, by decide⟩
  · rw [skillB]
    norm_num
  · rw [fight_AB (lt_of_le_of_lt (show (0.5 : ℝ) ≤ 0.99 by norm_num) ndAB)]

/-- Claim C1 (amended): in the concrete scenario the strength scores are
1356.22 and 1626.75 (the age modifier of B, aged 24, is -1), the delta is
exactly 270.53, the probability saturates above 0.99, and resolution makes
A, the first-entered competitor, the winner for every sample in [0, 0.99] —
in particular for every two-decimal sample the randomness source returns. -/
theorem claim_C1 (sample : ℝ) (h0 : 0 ≤ sample) (h1 : sample ≤ 0.99) :
    get_fighting_skill boxerA = 1356.22 ∧
    get_fighting_skill boxerB = 1626.75 ∧
    fightDelta boxerA boxerB = 270.53 ∧
    0.99 < normalizedDelta boxerA boxerB ∧
    (fight [boxerA, boxerB] dbAB sample).result = .ok boxerA.name := by
  refine ⟨skillA, skillB, deltaAB, ndAB, ?_⟩
  rw [fight_AB (lt_of_le_of_lt h1 ndAB)]
  rfl

/-- Witness for claim C1 at sample 0. -/
theorem claim_C1_witness :
    (0 : ℝ) ≤ 0 ∧ (0 : ℝ) ≤ 0.99 ∧
    (get_fighting_skill boxerA = 1356.22 ∧
     get_fighting_skill boxerB = 1626.75 ∧
     fightDelta boxerA boxerB = 270.53 ∧
     0.99 < normalizedDelta boxerA boxerB ∧
     (fight [boxerA, boxerB] dbAB 0).result = .ok boxerA.name) :=
  ⟨le_refl 0, by norm_num, claim_C1 0 (le_refl 0) (by norm_num)⟩

/-- Claim C2 counterexample: with the two scenario members entered and an
empty store, the first stat update fails, the raised error propagates
before the clearing step, and the ring still holds its two members. -/
theorem claim_C2_counterexample :
    [boxerA, boxerB].length = 2 ∧
    (fight [boxerA, boxerB] ([] : List BoxerRow) 0).ring = [boxerA, boxerB] ∧
    (fight [boxerA, boxerB] ([] : List BoxerRow) 0).ring ≠ [] := by
  refine ⟨rfl, ?_, ?_⟩
  · rw [fight_AB_emptyDb (normalizedDelta_pos boxerA boxerB)]
  · rw [fight_AB_emptyDb (normalizedDelta_pos boxerA boxerB)]
    simp

/-- Claim C2 (amended): after every resolution that passes the two-member
precondition and whose two stat updates both succeed, the ring is empty,
regardless of which side won; when an update fails the raised error skips
the clearing step and the members remain. -/
theorem claim_C2 (ring : List Boxer) (db : List BoxerRow) (sample : ℝ) (w : String)
    (h : (fight ring db sample).result = .ok w) :
    (fight ring db sample).ring = [] := by
  obtain ⟨b1, b2, dbW, dbL, hring, hw, hW, hL, heq⟩ := fight_ok_inv ring db sample w h
  rw [heq]

/-- Witness for claim C2 on the scenario fight with sample 0. -/
theorem claim_C2_witness :
    (fight [boxerA, boxerB] dbAB 0).result = .ok "AAAAAAAAA" ∧
    (fight [boxerA, boxerB] dbAB 0).ring = [] := by
  have hres : (fight [boxerA, boxerB] dbAB 0).result = .ok "AAAAAAAAA" := by
    rw [fight_AB (normalizedDelta_pos boxerA boxerB)]
  exact ⟨hres, claim_C2 [boxerA, boxerB] dbAB 0 "AAAAAAAAA" hres⟩

/-- Behaviour of the stat-update calls of a two-member fight, phrased for
the winner-loser pair the sample selects: a win update for the winner id is
issued first, the loss update for the loser id is issued only after the win
update succeeds, and a failing update propagates its error. -/
theorem fight_calls_aux (b1 b2 wb lb : Boxer) (db : List BoxerRow) (sample : ℝ)
    (hp : fightPair b1 b2 sample = (wb, lb)) :
    ((fight [b1, b2] db sample).calls = [(wb.id, "win"), (lb.id, "loss")] ∨
      ((fight [b1, b2] db sample).calls = [(wb.id, "win")] ∧
        ∃ e, update_boxer_stats db wb.id "win" = .error e ∧
          (fight [b1, b2] db sample).result = .error e)) ∧
    (∀ w, (fight [b1, b2] db sample).result = .ok w →
      (fight [b1, b2] db sample).calls = [(wb.id, "win"), (lb.id, "loss")]) ∧
    (∀ (dbW : List BoxerRow) (e : String),
      update_boxer_stats db wb.id "win" = .ok dbW →
      update_boxer_stats dbW lb.id "loss" = .error e →
      (fight [b1, b2] db sample).result = .error e) := by
  rcases hW : update_boxer_stats db wb.id "win" with e | dbW
  · have key : fight [b1, b2] db sample =
        { result := .error e, ring := [b1, b2], db := db,
          calls := [(wb.id, "win")], randRequests := 1 } := by
      rw [fight_pair, hp]
      simp only [hW]
    refine ⟨Or.inr ⟨by rw [key], e, rfl, by rw [key]⟩, ?_, ?_⟩
    · intro w hw
      rw [key] at hw
      simp at hw
    · intro dbW2 e2 hW2 hL2
      simp at hW2
  · rcases hL : update_boxer_stats dbW lb.id "loss" with e | dbL
    · have key : fight [b1, b2] db sample =
          { result := .error e, ring := [b1, b2], db := dbW,
            calls := [(wb.id, "win"), (lb.id, "loss")], randRequests := 1 } := by
        rw [fight_pair, hp]
        simp only [hW, hL]
      refine ⟨Or.inl (by rw [key]), ?_, ?_⟩
      · intro w hw
        rw [key] at hw
        simp at hw
      · intro dbW2 e2 hW2 hL2
        simp only [Except.ok.injEq] at hW2
        subst hW2
        rw [hL] at hL2
        simp only [Except.error.injEq] at hL2
        subst hL2
        rw [key]
    · have key : fight [b1, b2] db sample =
          { result := .ok wb.name, ring := [], db := dbL,
            calls := [(wb.id, "win"), (lb.id, "loss")], randRequests := 1 } := by
        rw [fight_pair, hp]
        simp only [hW, hL]
      refine ⟨Or.inl (by rw [key]), ?_, ?_⟩
      · intro w hw
        rw [key]
      · intro dbW2 e2 hW2 hL2
        simp only [Except.ok.injEq] at hW2
        subst hW2
        rw [hL] at hL2
        simp at hL2

/-- Claim C3 counterexample: with the two scenario members entered and an
empty store, the win update fails at once, so only one stat-update call is
attempted — the loss update is never issued — refuting that both calls are
attempted when one of them fails. -/
theorem claim_C3_counterexample :
    (fight [boxerA, boxerB] ([] : List BoxerRow) 0).calls = [(1, "win")] ∧
    (fight [boxerA, boxerB] ([] : List BoxerRow) 0).calls.length ≠ 2 ∧
    (fight [boxerA, boxerB] ([] : List BoxerRow) 0).result = .error "Boxer not found." := by
  rw [fight_AB_emptyDb (normalizedDelta_pos boxerA boxerB)]
  exact ⟨rfl, by decide, rfl⟩

/-- Claim C3 (amended): each resolved contest issues a win update for the
winner id — the id of the sample-selected competitor, the one whose name a
successful resolution returns — and a loss update for the loser id,
distinct ids matching the two entered members, in that order; the loss
update is attempted only after the win update succeeds, any failure
propagates to the caller, and on a successful resolution exactly the two
calls were made. -/
theorem claim_C3 (b1 b2 : Boxer) (db : List BoxerRow) (sample : ℝ)
    (hne : b1.id ≠ b2.id) :
    ∃ wi li : Int,
      wi = (fightPair b1 b2 sample).1.id ∧ li = (fightPair b1 b2 sample).2.id ∧
      (sample < normalizedDelta b1 b2 → wi = b1.id ∧ li = b2.id) ∧
      (¬ sample < normalizedDelta b1 b2 → wi = b2.id ∧ li = b1.id) ∧
      (∀ w, (fight [b1, b2] db sample).result = .ok w →
        ((w = b1.name ∧ wi = b1.id) ∨ (w = b2.name ∧ wi = b2.id))) ∧
      ((wi = b1.id ∧ li = b2.id) ∨ (wi = b2.id ∧ li = b1.id)) ∧ wi ≠ li ∧
      (((fight [b1, b2] db sample).calls = [(wi, "win"), (li, "loss")]) ∨
        ((fight [b1, b2] db sample).calls = [(wi, "win")] ∧
          ∃ e, update_boxer_stats db wi "win" = .error e ∧
            (fight [b1, b2] db sample).result = .error e)) ∧
      (∀ w, (fight [b1, b2] db sample).result = .ok w →
        (fight [b1, b2] db sample).calls = [(wi, "win"), (li, "loss")]) ∧
      (∀ (dbW : List BoxerRow) (e : String),
        update_boxer_stats db wi "win" = .ok dbW →
        update_boxer_stats dbW li "loss" = .error e →
        (fight [b1, b2] db sample).result = .error e) := by
  rcases lt_or_le sample (normalizedDelta b1 b2) with hlt | hge
  · have hp := fightPair_of_lt hlt
    refine ⟨b1.id, b2.id, by rw [hp], by rw [hp], fun _ => ⟨rfl, rfl⟩,
      fun hc => absurd hlt hc, ?_, Or.inl ⟨rfl, rfl⟩, hne,
      fight_calls_aux b1 b2 b1 b2 db sample hp⟩
    intro w hw
    obtain ⟨b1', b2', dbW, dbL, hring, hwname, -, -, -⟩ := fight_ok_inv _ db sample w hw
    injection hring with e1 rest
    injection rest with e2 _
    subst e1
    subst e2
    exact Or.inl ⟨by rw [hwname, hp], rfl⟩
  · have hnlt : ¬ sample < normalizedDelta b1 b2 := not_lt.mpr hge
    have hp := fightPair_of_ge hnlt
    refine ⟨b2.id, b1.id, by rw [hp], by rw [hp], fun hc => absurd hc hnlt,
      fun _ => ⟨rfl, rfl⟩, ?_, Or.inr ⟨rfl, rfl⟩, Ne.symm hne,
      fight_calls_aux b1 b2 b2 b1 db sample hp⟩
    intro w hw
    obtain ⟨b1', b2', dbW, dbL, hring, hwname, -, -, -⟩ := fight_ok_inv _ db sample w hw
    injection hring with e1 rest
    injection rest with e2 _
    subst e1
    subst e2
    exact Or.inr ⟨by rw [hwname, hp], rfl⟩

/-- Witness for claim C3 on the scenario pair with sample 0. -/
theorem claim_C3_witness :
    boxerA.id ≠ boxerB.id ∧
    (∃ wi li : Int,
      wi = (fightPair boxerA boxerB 0).1.id ∧ li = (fightPair boxerA boxerB 0).2.id ∧
      ((0 : ℝ) < normalizedDelta boxerA boxerB → wi = boxerA.id ∧ li = boxerB.id) ∧
      (¬ (0 : ℝ) < normalizedDelta boxerA boxerB → wi = boxerB.id ∧ li = boxerA.id) ∧
      (∀ w, (fight [boxerA, boxerB] dbAB 0).result = .ok w →
        ((w = boxerA.name ∧ wi = boxerA.id) ∨ (w = boxerB.name ∧ wi = boxerB.id))) ∧
      ((wi = boxerA.id ∧ li = boxerB.id) ∨ (wi = boxerB.id ∧ li = boxerA.id)) ∧ wi ≠ li ∧
      (((fight [boxerA, boxerB] dbAB 0).calls = [(wi, "win"), (li, "loss")]) ∨
        ((fight [boxerA, boxerB] dbAB 0).calls = [(wi, "win")] ∧
          ∃ e, update_boxer_stats dbAB wi "win" = .error e ∧
            (fight [boxerA, boxerB] dbAB 0).result = .error e)) ∧
      (∀ w, (fight [boxerA, boxerB] dbAB 0).result = .ok w →
        (fight [boxerA, boxerB] dbAB 0).calls = [(wi, "win"), (li, "loss")]) ∧
      (∀ (dbW : List BoxerRow) (e : String),
        update_boxer_stats dbAB wi "win" = .ok dbW →
        update_boxer_stats dbW li "loss" = .error e →
        (fight [boxerA, boxerB] dbAB 0).result = .error e)) :=
  ⟨by decide, claim_C3 boxerA boxerB dbAB 0 (by decide)⟩

end Boxing
